import Mathlib

/-!
Shallow embedding of the QuickSet pan-tilt controller's protocol codec and
controller state machine (src/src/quickset_pan_tilt/protocol.py and
src/src/quickset_pan_tilt/controller.py).

Bytes are modelled as `Nat` (values < 256 where it matters), Python
`bytearray`s as `List Nat`, Python exceptions as an explicit `PyErr` error
type threaded through `Except`, and the process-wide warning channel as an
explicit `List String` carried in results.  In-place `bytearray` mutation
(used by `parse_packet`) is modelled with an explicit reference store.
-/

/-! ## Control characters (protocol.py, CONTROL_CHARS) -/

def STX : Nat := 0x02
def ETX : Nat := 0x03
def ACK : Nat := 0x06
def NACK : Nat := 0x15
def ESC : Nat := 0x1b

def CONTROL_CHARS : List Nat := [STX, ETX, ACK, NACK, ESC]

/-! ## Python exceptions raised by the embedded code -/

inductive PyErr where
  | attributeError (name : String)
  | typeError
  | indexError
  | keyError
  | structError
  | overflowError
  | notImplementedError (cmd : String)
  | runtimeError (msg : String)
deriving DecidableEq

instance {ε α : Type} [DecidableEq ε] [DecidableEq α] :
    DecidableEq (Except ε α) := fun x y =>
  match x, y with
  | .ok a, .ok b =>
      if h : a = b then .isTrue (congrArg Except.ok h)
      else .isFalse (fun hh => h (Except.ok.inj hh))
  | .error a, .error b =>
      if h : a = b then .isTrue (congrArg Except.error h)
      else .isFalse (fun hh => h (Except.error.inj hh))
  | .ok _, .error _ => .isFalse (fun hh => Except.noConfusion hh)
  | .error _, .ok _ => .isFalse (fun hh => Except.noConfusion hh)

/-! ## Integer codec (protocol.py, int_to_bytes / bytes_to_int)

`int.to_bytes(length=2, byteorder='little', signed=True)` raises
`OverflowError` outside [-32768, 32767]; modelled as `none`.
`struct.unpack('<h', b)` requires exactly two bytes. -/

def int_to_bytes (integer : Int) : Option (List Nat) :=
  if integer < -32768 ∨ 32767 < integer then none
  else
    some [((integer % 65536).toNat) % 256, ((integer % 65536).toNat) / 256]

def bytes_to_int (two_bytes : List Nat) : Option Int :=
  match two_bytes with
  | [b0, b1] =>
      some (if b0 + 256 * b1 < 32768 then ((b0 + 256 * b1 : Nat) : Int)
            else ((b0 + 256 * b1 : Nat) : Int) - 65536)
  | _ => none

/-! ## Checksum (protocol.py, compute_lrc)

The source XOR-folds the bytes and wraps the result in a one-byte
bytearray; the byte value is modelled directly. -/

def compute_lrc (byte_array : List Nat) : Nat :=
  byte_array.foldl (fun lrc byte => lrc ^^^ byte) 0

/-! ## Escape sequences (protocol.py, escape_control_chars /
insert_escape_sequence / remove_escape_sequences) -/

def insert_escape_sequence (byte : Nat) : List Nat :=
  [ESC, byte ||| 0b10000000]

def escape_control_chars : List Nat → List Nat
  | [] => []
  | byte :: rest =>
      if byte ∈ CONTROL_CHARS then
        insert_escape_sequence byte ++ escape_control_chars rest
      else
        byte :: escape_control_chars rest

def remove_escape_aux : Bool → List Nat → List Nat
  | _, [] => []
  | found_esc, byte :: rest =>
      if byte = ESC then remove_escape_aux true rest
      else (if found_esc then byte &&& 0b01111111 else byte) ::
             remove_escape_aux false rest

def remove_escape_sequences (packet : List Nat) : List Nat :=
  remove_escape_aux false packet

/-! ## Status bitfields (protocol.py, PanStatus / TiltStatus / GenStatus /
GetStatusCmd)

Bitfields are laid over a base byte; a field named at position i reads bit
i of the base byte (LSB = bit 0). -/

def panStatusOL (base : Nat) : Bool := base.testBit 1
def panStatusDE (base : Nat) : Bool := base.testBit 2
def panStatusTO (base : Nat) : Bool := base.testBit 3
def tiltStatusOL (base : Nat) : Bool := base.testBit 1
def tiltStatusDE (base : Nat) : Bool := base.testBit 2
def tiltStatusTO (base : Nat) : Bool := base.testBit 3
def genStatusDES (base : Nat) : Bool := base.testBit 5
def genStatusEXEC (base : Nat) : Bool := base.testBit 6

def getStatusCmdBase (RES STOP OSL RU : Bool) : Nat :=
  RES.toNat + 2 * STOP.toNat + 4 * OSL.toNat + 8 * RU.toNat

/-! ## status_has_hard_faults (protocol.py line 227) -/

def status_has_hard_faults (pan_status tilt_status : Nat) : Bool :=
  (panStatusTO pan_status || panStatusDE pan_status || panStatusOL pan_status) ||
  (tiltStatusTO tilt_status || tiltStatusDE tilt_status || tiltStatusOL tilt_status)

/-! ## StatusResponse (protocol.py, PTCR20.StatusResponse) -/

structure StatusResponse where
  pan : ℚ
  tilt : ℚ
  pan_status : Nat
  tilt_status : Nat
  gen_status : Nat
  zoom : Nat
  focus : Nat
  n_cameras : Nat
  camera_data : Option (List Nat)
deriving DecidableEq

inductive ParseResult where
  | status (s : StatusResponse)
  | timeout (t : Nat)
deriving DecidableEq

/-! ## Command registry (protocol.py, QuicksetProtocol.__init__) -/

inductive AssembleTag where
  | get_status
  | move_to_entered
  | move_to_delta
  | none_fn
  | fault_reset
  | get_comm_timeout
  | set_comm_timeout
deriving DecidableEq

inductive ParseTag where
  | get_status
  | move_to_entered
  | move_to_delta
  | none_fn
  | communication_timeout
deriving DecidableEq

structure CommandEntry where
  assemble : AssembleTag
  parse : ParseTag
  number : Nat
deriving DecidableEq

def _COMMANDS (name : String) : Option CommandEntry :=
  if name = ("get_status") then some ⟨.get_status, .get_status, 0x31⟩
  else if name = ("move_absolute") then some ⟨.move_to_entered, .move_to_entered, 0x33⟩
  else if name = ("move_delta") then some ⟨.move_to_delta, .move_to_delta, 0x34⟩
  else if name = ("home") then some ⟨.none_fn, .none_fn, 0x35⟩
  else if name = ("fault_reset") then some ⟨.fault_reset, .get_status, 0x31⟩
  else if name = ("get_communication_timeout") then
    some ⟨.get_comm_timeout, .communication_timeout, 0x96⟩
  else if name = ("set_communication_timeout") then
    some ⟨.set_comm_timeout, .communication_timeout, 0x96⟩
  else none

/-! ## Command-specific assembly (protocol.py) -/

/-- PTCR20._assemble_get_status: GetStatusCmd with every bit clear,
followed by the four zeroed jog bytes. -/
def _assemble_get_status : List Nat :=
  [getStatusCmdBase false false false false, 0, 0, 0, 0]

/-- QuicksetProtocol._assemble_fault_reset: GetStatusCmd with RES set,
followed by the four zeroed jog bytes. -/
def _assemble_fault_reset : List Nat :=
  [getStatusCmdBase true false false false, 0, 0, 0, 0]

def _assemble_get_communication_timeout : List Nat := [0b10000000]

def TIMEOUT_RANGE_WARNING : String :=
  "Timeout value must be between 0 and 120 seconds. Timeout will not be set."

/-- QuicksetProtocol._assemble_set_communication_timeout: out-of-range
values warn and return None; in-range values become a single byte. -/
def _assemble_set_communication_timeout (timeout : Int) :
    Option (List Nat) × List String :=
  if 120 < timeout ∨ timeout < 0 then (none, [TIMEOUT_RANGE_WARNING])
  else (some [timeout.toNat], [])

/-- Python int() truncation toward zero, applied to an exact rational. -/
def py_int (q : ℚ) : Int := if 0 ≤ q then ⌊q⌋ else ⌈q⌉

def _assemble_move_to_entered (pan tilt : Option ℚ) :
    Except PyErr (List Nat) :=
  match int_to_bytes (py_int ((pan.getD (9999 / 10)) * 10)) with
  | none => .error .overflowError
  | some pan_bytes =>
      match int_to_bytes (py_int ((tilt.getD (9999 / 10)) * 10)) with
      | none => .error .overflowError
      | some tilt_bytes => .ok (pan_bytes ++ tilt_bytes)

def _assemble_move_to_delta (pan tilt : Option ℚ) :
    Except PyErr (List Nat) :=
  match int_to_bytes (py_int ((pan.getD 0) * 10)) with
  | none => .error .overflowError
  | some pan_bytes =>
      match int_to_bytes (py_int ((tilt.getD 0) * 10)) with
      | none => .error .overflowError
      | some tilt_bytes => .ok (pan_bytes ++ tilt_bytes)

/-- Arguments forwarded through assemble_packet's *data parameter. -/
inductive CmdArgs where
  | noArgs
  | coords (pan tilt : Option ℚ)
  | timeout (t : Int)
deriving DecidableEq

/-- Dispatch of the registry's per-command assemble functions.  A command
invoked with arguments its source signature cannot accept raises
TypeError, as Python would. -/
def runAssemble : AssembleTag → CmdArgs → Except PyErr (Option (List Nat)) × List String
  | .get_status, .noArgs => (.ok (some _assemble_get_status), [])
  | .fault_reset, .noArgs => (.ok (some _assemble_fault_reset), [])
  | .get_comm_timeout, .noArgs => (.ok (some _assemble_get_communication_timeout), [])
  | .set_comm_timeout, .timeout t =>
      match _assemble_set_communication_timeout t with
      | (d, w) => (.ok d, w)
  | .move_to_entered, .coords pan tilt =>
      ((_assemble_move_to_entered pan tilt).map some, [])
  | .move_to_entered, .noArgs =>
      ((_assemble_move_to_entered none none).map some, [])
  | .move_to_delta, .coords pan tilt =>
      ((_assemble_move_to_delta pan tilt).map some, [])
  | .move_to_delta, .noArgs =>
      ((_assemble_move_to_delta none none).map some, [])
  | .none_fn, .noArgs => (.ok none, [])
  | _, _ => (.error .typeError, [])

/-! ## Packet assembly (protocol.py, _assemble_cmd_data_lrc /
assemble_packet, with PTCR20._add_identity_byte) -/

def _assemble_cmd_data_lrc (cmd_name : String) (args : CmdArgs) :
    Except PyErr (List Nat) × List String :=
  match _COMMANDS cmd_name with
  | none => (.error (.notImplementedError cmd_name), [])
  | some entry =>
      match runAssemble entry.assemble args with
      | (.error e, w) => (.error e, w)
      | (.ok data_bytes, w) =>
          (.ok ((entry.number :: data_bytes.getD []) ++
                [compute_lrc (entry.number :: data_bytes.getD [])]), w)

/-- QuicksetProtocol.assemble_packet for the PTCR20 dialect: the identity
byte is inserted at position 0 before escaping, then STX/ETX are added. -/
def assemble_packet (identity : Nat) (cmd_name : String) (args : CmdArgs) :
    Except PyErr (List Nat) × List String :=
  match _assemble_cmd_data_lrc cmd_name args with
  | (.error e, w) => (.error e, w)
  | (.ok packet, w) =>
      (.ok (STX :: escape_control_chars (identity :: packet) ++ [ETX]), w)

/-- Wire frame as the specification's words describe it: the identity byte
sits outside the escaped region and is emitted verbatim.  Written from the
spec, to be compared with `assemble_packet`. -/
def spec_wire_frame (identity : Nat) (payload : List Nat) : List Nat :=
  STX :: identity :: escape_control_chars payload ++ [ETX]

/-! ## Command-specific parsing (protocol.py) -/

/-- QuicksetProtocol._parse_communication_timeout: rejects packets longer
than one byte, indexes the single data byte (IndexError when empty) and
masks bits 6..0. -/
def _parse_communication_timeout (packet : List Nat) : Except PyErr Nat :=
  if 1 < packet.length then
    .error (.runtimeError ("Packet is too long."))
  else
    match packet with
    | [] => .error .indexError
    | byte :: _ => .ok (byte &&& 0b01111111)

/-- PTCR20._parse_get_status: pan and tilt from the first four bytes
(signed 16-bit little endian, divided by the angle multiplier 10), then
the three status bytes, zoom, focus, camera count, and any trailing
camera data. -/
def _parse_get_status (packet : List Nat) : Except PyErr StatusResponse :=
  match bytes_to_int (packet.take 2) with
  | none => .error .structError
  | some pan_int =>
      match bytes_to_int ((packet.drop 2).take 2) with
      | none => .error .structError
      | some tilt_int =>
          match packet.get? 4, packet.get? 5, packet.get? 6,
                packet.get? 7, packet.get? 8, packet.get? 9 with
          | some ps, some ts, some gs, some zm, some fc, some nc =>
              .ok { pan := (pan_int : ℚ) / 10
                    tilt := (tilt_int : ℚ) / 10
                    pan_status := ps
                    tilt_status := ts
                    gen_status := gs
                    zoom := zm
                    focus := fc
                    n_cameras := nc
                    camera_data :=
                      if 10 < packet.length then some (packet.drop 10) else none }
          | _, _, _, _, _, _ => .error .indexError

/-- Dispatch of the registry's parse functions.  The source's
_parse_move_to_entered / _parse_move_to_delta take no packet argument and
the home command's parse is a zero-argument lambda, so calling them with
the data bytes raises TypeError. -/
def runParse : ParseTag → List Nat → Except PyErr ParseResult
  | .get_status, packet => (_parse_get_status packet).map .status
  | .communication_timeout, packet => (_parse_communication_timeout packet).map .timeout
  | .move_to_entered, _ => .error .typeError
  | .move_to_delta, _ => .error .typeError
  | .none_fn, _ => .error .typeError

/-! ## Reference store for bytearray mutation (parse_packet)

Python bytearrays are mutable heap objects; `parse_packet` copies the
caller's packet (`packet[:]`) and performs every deletion on the copy.
The store maps references (allocation order) to byte lists. -/

structure Store where
  mem : Nat → List Nat
  next : Nat

def readRef (σ : Store) (r : Nat) : List Nat := σ.mem r

def writeRef (σ : Store) (r : Nat) (v : List Nat) : Store :=
  ⟨fun i => if i = r then v else σ.mem i, σ.next⟩

def allocRef (σ : Store) (v : List Nat) : Nat × Store :=
  (σ.next, ⟨fun i => if i = σ.next then v else σ.mem i, σ.next + 1⟩)

def singletonStore (packet : List Nat) : Store :=
  ⟨fun i => if i = 0 then packet else [], 1⟩

/-! ## parse_packet (protocol.py line 322)

Modelled in two stages over the store.  `parse_packet_st_rest` performs
the steps after escape-sequence and identity-byte removal: LRC check,
deletion of the LRC byte, command-number check, deletion of the command
byte, and dispatch to the command's parse routine.  `hasIdentity`
distinguishes PTCR20 (which deletes the identity byte in place) from the
base-class no-op. -/

def parse_packet_st_rest (cmd_name : String) (r : Nat) (σ : Store) :
    Except PyErr ParseResult × Store :=
  if compute_lrc (readRef σ r) ≠ 0 then
    (.error (.runtimeError ("LRC does not match. Packet was corrupted.")), σ)
  else if readRef σ r = [] then
    -- del local_packet[-1] on an empty bytearray raises IndexError
    (.error .indexError, σ)
  else
    let σ1 := writeRef σ r ((readRef σ r).dropLast)
    match (readRef σ1 r).head? with
    | none => (.error .indexError, σ1)
    | some cmd_number =>
        match _COMMANDS cmd_name with
        | none => (.error .keyError, σ1)
        | some entry =>
            if entry.number ≠ cmd_number then
              (.error (.runtimeError ("Received command number does not match expected command number.")), σ1)
            else
              let σ2 := writeRef σ1 r ((readRef σ1 r).drop 1)
              (runParse entry.parse (readRef σ2 r), σ2)

def parse_packet_st (hasIdentity : Bool) (cmd_name : String) (ref : Nat)
    (σ0 : Store) : Except PyErr ParseResult × Store :=
  -- local_packet = packet[:]
  let pkt := readRef σ0 ref
  let r1 := σ0.next
  let σ1 := (allocRef σ0 pkt).2
  match pkt with
  | [] => (.error .indexError, σ1)  -- local_packet[0] on an empty bytearray
  | b :: rest =>
      if b = ACK ∧ (b :: rest).getLastD 0 = ETX then
        -- del local_packet[0]; del local_packet[-1]
        let σ2 := writeRef σ1 r1 ((readRef σ1 r1).drop 1)
        let σ3 := writeRef σ2 r1 ((readRef σ2 r1).dropLast)
        -- local_packet = self.remove_escape_sequences(local_packet)
        let r2 := σ3.next
        let σ4 := (allocRef σ3 (remove_escape_sequences (readRef σ3 r1))).2
        if hasIdentity then
          -- PTCR20._remove_identity_byte: del packet[0]
          if readRef σ4 r2 = [] then (.error .indexError, σ4)
          else
            parse_packet_st_rest cmd_name r2
              (writeRef σ4 r2 ((readRef σ4 r2).drop 1))
        else
          parse_packet_st_rest cmd_name r2 σ4
      else
        (.error (.runtimeError ("Packet is invalid")), σ1)

/-! ## Controller pieces (controller.py) -/

/-- Python values a protocol status method can return; the only such
method defined by QuicksetProtocol is status_has_hard_faults, which
returns a bool. -/
inductive PyVal where
  | bool (b : Bool)
deriving DecidableEq

/-- Attribute lookup on a QuicksetProtocol instance, restricted to
methods taking (pan_status, tilt_status).  The class defines
status_has_hard_faults and nothing else of that shape; in particular it
defines neither check_for_hard_faults nor check_for_soft_faults. -/
def protocolStatusAttr (name : String) : Option (Nat → Nat → PyVal) :=
  if name = ("status_has_hard_faults") then
    some (fun pan_status tilt_status =>
      .bool (status_has_hard_faults pan_status tilt_status))
  else none

/-- QuicksetController.check_for_faults (controller.py line 287): calls
self._protocol.check_for_hard_faults and check_for_soft_faults; Python
resolves each attribute at call time and raises AttributeError when the
protocol object does not define it. -/
def check_for_faults (pan_status tilt_status : Nat) :
    Except PyErr (PyVal × PyVal) :=
  match protocolStatusAttr ("check_for_hard_faults") with
  | none => .error (.attributeError ("check_for_hard_faults"))
  | some hard =>
      match protocolStatusAttr ("check_for_soft_faults") with
      | none => .error (.attributeError ("check_for_soft_faults"))
      | some soft =>
          .ok (hard pan_status tilt_status, soft pan_status tilt_status)

/-- Controller runtime coordinate state (controller.py __init__): each
field starts as None and is only written by
_set_pan_tilt_coordinate_properties. -/
structure ControllerState where
  pan : Option ℚ
  tilt : Option ℚ
  pan_destination : Option ℚ
  tilt_destination : Option ℚ
deriving DecidableEq

/-- QuicksetController._set_pan_tilt_coordinate_properties (controller.py
line 266): DES set updates the destination pair, DES clear updates the
current-position pair. -/
def _set_pan_tilt_coordinate_properties (st : ControllerState)
    (status : StatusResponse) : ControllerState :=
  if genStatusDES status.gen_status then
    { st with pan_destination := some status.pan
              tilt_destination := some status.tilt }
  else
    { st with pan := some status.pan
              tilt := some status.tilt }

def TIMEOUT_MISMATCH_WARNING : String :=
  "Communication timeout was not set successfully."

/-- Outcome of one controller operation against a scripted transport:
the Python return value or exception, every frame written to the serial
port, and every warning issued. -/
structure SetterResult where
  result : Except PyErr Unit
  sent : List (List Nat)
  warnings : List String
deriving DecidableEq

/-- QuicksetController.communication_timeout setter (controller.py line
90): assembles and sends the set_communication_timeout frame, receives
one response, parses it with the same command name, and warns when the
parsed value differs from the requested one.  `rxScript` scripts
_receive
(none models a read timeout, in which case parse_packet receives None and
raises TypeError). -/
def communication_timeout_setter (identity : Nat) (timeout : Int)
    (rxScript : List (Option (List Nat))) : SetterResult :=
  match assemble_packet identity ("set_communication_timeout") (.timeout timeout) with
  | (.error e, w) => ⟨.error e, [], w⟩
  | (.ok frame, w) =>
      match rxScript.headD none with
      | none => ⟨.error .typeError, [frame], w⟩
      | some rx =>
          match (parse_packet_st true ("set_communication_timeout") 0
                  (singletonStore rx)).1 with
          | .error e => ⟨.error e, [frame], w⟩
          | .ok (.timeout actual) =>
              if (actual : Int) ≠ timeout then
                ⟨.ok (), [frame], w ++ [TIMEOUT_MISMATCH_WARNING]⟩
              else
                ⟨.ok (), [frame], w⟩
          | .ok (.status _) =>
              -- int != StatusResponse is True in Python, so it would warn
              ⟨.ok (), [frame], w ++ [TIMEOUT_MISMATCH_WARNING]⟩

/-! ## Theorems -/

theorem control_chars_cases (b : Nat) (hb : b ∈ CONTROL_CHARS) :
    b = 2 ∨ b = 3 ∨ b = 6 ∨ b = 21 ∨ b = 27 := by
  simpa [CONTROL_CHARS, STX, ETX, ACK, NACK, ESC] using hb

theorem remove_escape_aux_esc (b : Nat) (hb : b ∈ CONTROL_CHARS) (l : List Nat) :
    remove_escape_aux false (insert_escape_sequence b ++ l) =
      b :: remove_escape_aux false l := by
  rcases control_chars_cases b hb with rfl | rfl | rfl | rfl | rfl <;> rfl

theorem remove_escape_aux_nonesc (b : Nat) (hbne : b ≠ ESC) (l : List Nat) :
    remove_escape_aux false (b :: l) = b :: remove_escape_aux false l := by
  simp [remove_escape_aux, hbne]

theorem unescape_escape_aux (p : List Nat) :
    remove_escape_aux false (escape_control_chars p) = p := by
  induction p with
  | nil => rfl
  | cons b rest ih =>
      by_cases hb : b ∈ CONTROL_CHARS
      · simp only [escape_control_chars, if_pos hb]
        rw [remove_escape_aux_esc b hb, ih]
      · have hbne : b ≠ ESC := fun hh => hb (by rw [hh]; decide)
        simp only [escape_control_chars, if_neg hb]
        rw [remove_escape_aux_nonesc b hbne, ih]

/-- Claim C5: unescaping the escaped sequence returns the original byte
sequence, for every byte sequence (the proof does not even need the byte
bound; it is kept to match the claim's scope). -/
theorem unescape_escape_roundtrip (p : List Nat) (hp : ∀ b ∈ p, b < 256) :
    remove_escape_sequences (escape_control_chars p) = p :=
  unescape_escape_aux p

/-- Claim C5 witness: a sequence containing every control-character value
and ordinary bytes round-trips. -/
theorem unescape_escape_roundtrip_witness :
    (∀ b ∈ [2, 3, 6, 0x15, 0x1b, 0, 255, 130], b < 256) ∧
    remove_escape_sequences
        (escape_control_chars [2, 3, 6, 0x15, 0x1b, 0, 255, 130]) =
      [2, 3, 6, 0x15, 0x1b, 0, 255, 130] :=
  ⟨by decide, unescape_escape_roundtrip _ (by decide)⟩

/-- Claim C6: XOR-folding a non-empty byte sequence with its own checksum
byte appended yields zero. -/
theorem lrc_self_cancellation (p : List Nat) (h1 : p ≠ [])
    (h2 : ∀ b ∈ p, b < 256) :
    compute_lrc (p ++ [compute_lrc p]) = 0 := by
  simp [compute_lrc, List.foldl_append]

/-- Claim C6 witness, on the spec's literal example bytes. -/
theorem lrc_self_cancellation_witness :
    ([0x33, 1, 0, 2, 0] : List Nat) ≠ [] ∧
    compute_lrc ([0x33, 1, 0, 2, 0] ++ [compute_lrc [0x33, 1, 0, 2, 0]]) = 0 :=
  ⟨by decide, lrc_self_cancellation _ (by decide) (by decide)⟩

/-- Claim C7: the 2-byte little-endian two's-complement codec round-trips
on [-32768, 32767], and encoding fails outside that range. -/
theorem int16_roundtrip_and_range (v : Int) :
    ((-32768 ≤ v ∧ v ≤ 32767) →
      (int_to_bytes v).bind bytes_to_int = some v) ∧
    ((v < -32768 ∨ 32767 < v) → int_to_bytes v = none) := by
  constructor
  · rintro ⟨ha, hb⟩
    have hne : ¬(v < -32768 ∨ 32767 < v) := by omega
    rw [int_to_bytes, if_neg hne]
    show bytes_to_int [((v % 65536).toNat) % 256, ((v % 65536).toNat) / 256] =
      some v
    simp only [bytes_to_int, Option.some.injEq]
    split <;> omega
  · intro hout
    rw [int_to_bytes, if_pos hout]

/-- Claim C7 witness at an in-range and at an out-of-range value. -/
theorem int16_roundtrip_and_range_witness :
    (int_to_bytes (-12345)).bind bytes_to_int = some (-12345) ∧
    int_to_bytes 40000 = none :=
  ⟨(int16_roundtrip_and_range (-12345)).1 (by decide),
   (int16_roundtrip_and_range 40000).2 (by decide)⟩

/-- Claim C9: get_status and fault_reset share opcode 0x31 and the same
parse routine in the command registry, and their outbound data are five
zero bytes versus the same five bytes with bit 0 of the first byte set
(all jog fields zero). -/
theorem get_status_fault_reset_registry :
    Option.map (fun e => e.number) (_COMMANDS ("get_status")) = some 0x31 ∧
    Option.map (fun e => e.number) (_COMMANDS ("fault_reset")) = some 0x31 ∧
    Option.map (fun e => e.parse) (_COMMANDS ("get_status")) =
      some ParseTag.get_status ∧
    Option.map (fun e => e.parse) (_COMMANDS ("fault_reset")) =
      some ParseTag.get_status ∧
    _assemble_get_status = [0, 0, 0, 0, 0] ∧
    _assemble_fault_reset =
      (match _assemble_get_status with
       | [] => []
       | b :: rest => (b ||| 1) :: rest) :=
  ⟨rfl, rfl, rfl, rfl, rfl, rfl⟩

/-- Claim C1 (code bug): check_for_faults never returns a pair of fault
lists; it raises AttributeError on every status, because the protocol
class defines no check_for_hard_faults (or check_for_soft_faults)
attribute — only status_has_hard_faults, which returns a single bool. -/
theorem check_for_faults_attribute_error (pan_status tilt_status : Nat) :
    check_for_faults pan_status tilt_status =
      .error (.attributeError ("check_for_hard_faults")) := rfl

/-- Claim C2 (code bug): for the out-of-range timeout 121 the caller is
warned, but packet assembly still produces an opcode-only wire frame
(the None returned by _assemble_set_communication_timeout is treated as
"command without data bytes"), and the setter writes that frame to the
transport before failing on the unparseable reply. -/
theorem set_timeout_out_of_range_sends_frame :
    assemble_packet 0 ("set_communication_timeout") (.timeout 121) =
      (.ok [0x02, 0x00, 0x96, 0x96, 0x03], [TIMEOUT_RANGE_WARNING]) ∧
    communication_timeout_setter 0 121 [] =
      ⟨.error .typeError, [[0x02, 0x00, 0x96, 0x96, 0x03]],
       [TIMEOUT_RANGE_WARNING]⟩ :=
  ⟨rfl, rfl⟩

/-- Claim C8: the coordinate-property update touches exactly the pair of
runtime fields selected by the DES flag and leaves the other pair
unchanged. -/
theorem des_flag_selects_updated_pair (st : ControllerState)
    (status : StatusResponse) :
    (genStatusDES status.gen_status = true →
      (_set_pan_tilt_coordinate_properties st status).pan_destination =
        some status.pan ∧
      (_set_pan_tilt_coordinate_properties st status).tilt_destination =
        some status.tilt ∧
      (_set_pan_tilt_coordinate_properties st status).pan = st.pan ∧
      (_set_pan_tilt_coordinate_properties st status).tilt = st.tilt) ∧
    (genStatusDES status.gen_status = false →
      (_set_pan_tilt_coordinate_properties st status).pan = some status.pan ∧
      (_set_pan_tilt_coordinate_properties st status).tilt = some status.tilt ∧
      (_set_pan_tilt_coordinate_properties st status).pan_destination =
        st.pan_destination ∧
      (_set_pan_tilt_coordinate_properties st status).tilt_destination =
        st.tilt_destination) := by
  constructor <;> intro h <;>
    simp [_set_pan_tilt_coordinate_properties, h]

/-- Claim C8 witness: a DES-set status updates the destination pair and
leaves the current-position pair unchanged. -/
theorem des_flag_selects_updated_pair_witness :
    genStatusDES (StatusResponse.mk 10 (-5) 0 0 32 7 8 0 none).gen_status = true ∧
    ((_set_pan_tilt_coordinate_properties ⟨some 1, some 2, none, none⟩
        (StatusResponse.mk 10 (-5) 0 0 32 7 8 0 none)).pan_destination =
      some (StatusResponse.mk 10 (-5) 0 0 32 7 8 0 none).pan ∧
     (_set_pan_tilt_coordinate_properties ⟨some 1, some 2, none, none⟩
        (StatusResponse.mk 10 (-5) 0 0 32 7 8 0 none)).tilt_destination =
      some (StatusResponse.mk 10 (-5) 0 0 32 7 8 0 none).tilt ∧
     (_set_pan_tilt_coordinate_properties ⟨some 1, some 2, none, none⟩
        (StatusResponse.mk 10 (-5) 0 0 32 7 8 0 none)).pan =
      (⟨some 1, some 2, none, none⟩ : ControllerState).pan ∧
     (_set_pan_tilt_coordinate_properties ⟨some 1, some 2, none, none⟩
        (StatusResponse.mk 10 (-5) 0 0 32 7 8 0 none)).tilt =
      (⟨some 1, some 2, none, none⟩ : ControllerState).tilt) :=
  ⟨by decide,
   (des_flag_selects_updated_pair ⟨some 1, some 2, none, none⟩
      (StatusResponse.mk 10 (-5) 0 0 32 7 8 0 none)).1 (by decide)⟩

/-- Claim C4 counterexample: for the PTCR20 dialect with identity byte
0x02 (a control-character value) and the home command, the assembled
frame escapes the identity byte, so it differs from the spec's
STX ++ identity ++ escape(payload) ++ ETX format. -/
theorem identity_byte_escaped_counterexample :
    _assemble_cmd_data_lrc ("home") (.noArgs) = (.ok [0x35, 0x35], []) ∧
    (assemble_packet 2 ("home") (.noArgs)).1 =
      .ok [0x02, 0x1B, 0x82, 0x35, 0x35, 0x03] ∧
    spec_wire_frame 2 [0x35, 0x35] = [0x02, 0x02, 0x35, 0x35, 0x03] ∧
    (assemble_packet 2 ("home") (.noArgs)).1 ≠
      .ok (spec_wire_frame 2 [0x35, 0x35]) := by
  refine ⟨rfl, rfl, rfl, by decide⟩

/-- Claim C4 (amended): whenever payload assembly succeeds, the frame is
STX ++ escape(identity ++ opcode ++ data ++ checksum) ++ ETX — the
identity byte is inserted before escaping and passes through the
escaping step; it is emitted verbatim exactly when its value is not a
control character. -/
theorem assemble_packet_frame_structure (identity : Nat) (cmd_name : String)
    (args : CmdArgs) (payload : List Nat) (w : List String)
    (h : _assemble_cmd_data_lrc cmd_name args = (.ok payload, w)) :
    (assemble_packet identity cmd_name args).1 =
      .ok (STX :: escape_control_chars (identity :: payload) ++ [ETX]) ∧
    (identity ∉ CONTROL_CHARS →
      (assemble_packet identity cmd_name args).1 =
        .ok (STX :: identity :: escape_control_chars payload ++ [ETX])) := by
  have hmain : (assemble_packet identity cmd_name args).1 =
      .ok (STX :: escape_control_chars (identity :: payload) ++ [ETX]) := by
    simp only [assemble_packet, h]
  refine ⟨hmain, fun hid => ?_⟩
  rw [hmain]
  simp only [escape_control_chars, if_neg hid]

/-- Claim C4 witness for the amended statement, at identity 0 and the
home command. -/
theorem assemble_packet_frame_structure_witness :
    (assemble_packet 0 ("home") (.noArgs)).1 =
      .ok (STX :: escape_control_chars (0 :: [0x35, 0x35]) ++ [ETX]) ∧
    ((0 : Nat) ∉ CONTROL_CHARS →
      (assemble_packet 0 ("home") (.noArgs)).1 =
        .ok (STX :: 0 :: escape_control_chars [0x35, 0x35] ++ [ETX])) :=
  assemble_packet_frame_structure 0 ("home") (.noArgs) [0x35, 0x35] []
    (by decide)

/-- Claim C3 counterexample: with in-range timeout 10 and a scripted
valid device reply, the setter writes exactly one frame — the
set_communication_timeout frame — and the get_communication_timeout
frame is never transmitted, so no second get request is issued. -/
theorem set_timeout_no_second_get_request :
    (communication_timeout_setter 0 10
        [some [0x06, 0x00, 0x96, 0x0A, 0x9C, 0x03]]).sent =
      [[0x02, 0x00, 0x96, 0x0A, 0x9C, 0x03]] ∧
    (communication_timeout_setter 0 10
        [some [0x06, 0x00, 0x96, 0x0A, 0x9C, 0x03]]).sent.length = 1 ∧
    (assemble_packet 0 ("get_communication_timeout") (.noArgs)).1 =
      .ok [0x02, 0x00, 0x96, 0x80, 0x16, 0x03] ∧
    [0x02, 0x00, 0x96, 0x80, 0x16, 0x03] ∉
      (communication_timeout_setter 0 10
        [some [0x06, 0x00, 0x96, 0x0A, 0x9C, 0x03]]).sent := by
  refine ⟨rfl, rfl, rfl, by decide⟩

/-- Claim C3 (amended): for every in-range timeout, the setter sends the
set-timeout frame exactly once and reads back the device's response to
that same command (parsed with the set_communication_timeout parser); if
the read-back value differs from the requested one a warning is issued,
the operation still returns normally, and no further frame is sent (the
attempt is not retried).  No separate get_communication_timeout request
is issued. -/
theorem set_timeout_readback_behavior (timeout : Int) (rx : List Nat)
    (v : Nat) (h0 : 0 ≤ timeout) (h1 : timeout ≤ 120)
    (hp : (parse_packet_st true ("set_communication_timeout") 0
            (singletonStore rx)).1 = .ok (.timeout v)) :
    communication_timeout_setter 0 timeout [some rx] =
      ⟨.ok (),
       [STX :: escape_control_chars
          (0 :: [0x96, timeout.toNat, compute_lrc [0x96, timeout.toNat]]) ++
          [ETX]],
       if (v : Int) ≠ timeout then [TIMEOUT_MISMATCH_WARNING] else []⟩ := by
  have hrange : ¬(120 < timeout ∨ timeout < 0) := by omega
  have hset : _assemble_set_communication_timeout timeout =
      (some [timeout.toNat], []) := by
    rw [_assemble_set_communication_timeout, if_neg hrange]
  have hcmd : _COMMANDS ("set_communication_timeout") =
      some ⟨AssembleTag.set_comm_timeout, ParseTag.communication_timeout,
            0x96⟩ := rfl
  have hasm : assemble_packet 0 ("set_communication_timeout")
        (.timeout timeout) =
      (.ok (STX :: escape_control_chars
          (0 :: [0x96, timeout.toNat, compute_lrc [0x96, timeout.toNat]]) ++
          [ETX]), []) := by
    simp only [assemble_packet, _assemble_cmd_data_lrc, hcmd,
      runAssemble, hset, Option.getD]
    rfl
  simp only [communication_timeout_setter, hasm, List.headD, hp]
  split <;> rfl

/-- Claim C3 witness for the amended statement: timeout 10 with a reply
echoing 10 sends one frame, returns normally, and issues no warning. -/
theorem set_timeout_readback_behavior_witness :
    (0 : Int) ≤ 10 ∧ (10 : Int) ≤ 120 ∧
    (parse_packet_st true ("set_communication_timeout") 0
        (singletonStore [0x06, 0x00, 0x96, 0x0A, 0x9C, 0x03])).1 =
      .ok (.timeout 10) ∧
    communication_timeout_setter 0 10
        [some [0x06, 0x00, 0x96, 0x0A, 0x9C, 0x03]] =
      ⟨.ok (),
       [STX :: escape_control_chars
          (0 :: [0x96, (10 : Int).toNat,
                 compute_lrc [0x96, (10 : Int).toNat]]) ++ [ETX]],
       if ((10 : Nat) : Int) ≠ (10 : Int) then [TIMEOUT_MISMATCH_WARNING]
       else []⟩ :=
  ⟨by decide, by decide, by decide,
   set_timeout_readback_behavior 10 [0x06, 0x00, 0x96, 0x0A, 0x9C, 0x03] 10
     (by decide) (by decide) (by decide)⟩

theorem readRef_writeRef_ne (σ : Store) (r i : Nat) (v : List Nat)
    (h : i ≠ r) : readRef (writeRef σ r v) i = readRef σ i := by
  simp [readRef, writeRef, h]

theorem readRef_allocRef (σ : Store) (v : List Nat) (i : Nat)
    (h : i ≠ σ.next) : readRef (allocRef σ v).2 i = readRef σ i := by
  simp [readRef, allocRef, h]

theorem parse_packet_st_rest_preserves (cmd_name : String) (r i : Nat)
    (σ : Store) (h : i ≠ r) :
    readRef (parse_packet_st_rest cmd_name r σ).2 i = readRef σ i := by
  unfold parse_packet_st_rest
  dsimp only
  repeat' split
  all_goals first
    | rfl
    | exact readRef_writeRef_ne _ _ _ _ h
    | rw [readRef_writeRef_ne _ _ _ _ h, readRef_writeRef_ne _ _ _ _ h]

/-- Claim C10: parse_packet never mutates the caller's packet: whatever
branch is taken (framing, checksum, key, index or opcode-mismatch fault,
or success), every write goes to the locally allocated copies, so the
caller's reference reads back byte-for-byte unchanged. -/
theorem parse_packet_preserves_caller_packet (hasIdentity : Bool)
    (cmd_name : String) (ref : Nat) (σ0 : Store) (h : ref < σ0.next) :
    readRef (parse_packet_st hasIdentity cmd_name ref σ0).2 ref =
      readRef σ0 ref := by
  have h1 : ref ≠ σ0.next := Nat.ne_of_lt h
  have h2 : ref ≠ σ0.next + 1 := by omega
  unfold parse_packet_st
  try dsimp only
  repeat' split
  all_goals first
    | exact readRef_allocRef _ _ _ h1
    | (simp [readRef, writeRef, allocRef, h1, h2]; done)
    | (rw [parse_packet_st_rest_preserves] <;>
        first
          | exact h2
          | (simp [readRef, writeRef, allocRef, h1, h2]; done))

/-- Claim C10 witness: a concrete store holding one received frame is
unchanged at the caller's reference after a full successful parse. -/
theorem parse_packet_preserves_caller_packet_witness :
    0 < (singletonStore [0x06, 0x00, 0x96, 0x0A, 0x9C, 0x03]).next ∧
    readRef (parse_packet_st true ("get_communication_timeout") 0
        (singletonStore [0x06, 0x00, 0x96, 0x0A, 0x9C, 0x03])).2 0 =
      readRef (singletonStore [0x06, 0x00, 0x96, 0x0A, 0x9C, 0x03]) 0 :=
  ⟨by decide,
   parse_packet_preserves_caller_packet true ("get_communication_timeout") 0
     (singletonStore [0x06, 0x00, 0x96, 0x0A, 0x9C, 0x03]) (by decide)⟩
